import Mathlib

/-!
Shallow embedding of the `zcache` crate (src/lib.rs): an in-memory cache
mapping string keys to `(valid_until, value)` pairs, with lazy expiry.
The Rust store is a `HashMap<String, (u128, Box<ZEntry>)>`; we model it as
a function from keys to optional entries (map semantics). The wall clock
(`now_in_millis`, milliseconds since epoch) is passed explicitly as a `Nat`
argument, and a `Duration` ttl is modelled by its `as_millis()` value.
-/

namespace Zcache

/-- The closed value-variant set, from `enum ZEntry` in src/lib.rs. -/
inductive ZEntry where
  | Int : Int → ZEntry
  | Float : Float → ZEntry
  | Text : String → ZEntry
  | Bool : Bool → ZEntry

/-- The sole error kind, from `enum ZCacheError` in src/lib.rs:
`FetchError(String)` carries the key whose producer failed. -/
inductive ZCacheError where
  | FetchError : String → ZCacheError
deriving DecidableEq

/-- The cache store: a mapping from key to `(valid_until, value)`,
from `type ZCacheStore` in src/lib.rs (map semantics of the `HashMap`). -/
abbrev ZCacheStore := String → Option (Nat × ZEntry)

/-- The empty store (the store is created empty on first use). -/
def emptyStore : ZCacheStore := fun _ => none

/-- `ZCache::read`, kept together with the store it leaves behind.
The Rust body only performs `cache.get(&key)` and inspects the entry:
if `valid_until == 0 || valid_until > now_in_millis()` the value is
returned, otherwise (or when absent) `None`; the store is not touched. -/
def ZCache.readM (store : ZCacheStore) (now : Nat) (key : String) :
    Option ZEntry × ZCacheStore :=
  match store key with
  | some (valid_until, value) =>
      if valid_until = 0 ∨ valid_until > now then (some value, store)
      else (none, store)
  | none => (none, store)

/-- `ZCache::read`: the value component of `readM`. -/
def ZCache.read (store : ZCacheStore) (now : Nat) (key : String) :
    Option ZEntry :=
  (ZCache.readM store now key).1

/-- `ZCache::write`: computes `valid_until` (`now + duration` when a ttl is
supplied, the sentinel `0` otherwise) and inserts `(valid_until, value)`
under `key`, replacing any previous entry. -/
def ZCache.write (store : ZCacheStore) (now : Nat) (key : String)
    (value : ZEntry) (expires_in : Option Nat) : ZCacheStore :=
  let valid_until : Nat :=
    match expires_in with
    | some duration => now + duration
    | none => 0
  fun k => if k = key then some (valid_until, value) else store k

/-- `ZCache::fetch`: read-through orchestration. On a hit the cached value
is returned and the producer is not run; on a miss the producer is run once
(`f().await`, modelled by its yielded `Option ZEntry`); a produced value is
written (at the possibly later time `tWrite`) and returned, and a produced
`none` yields `FetchError key` with no write. The result triple records the
fetch result, the store afterwards, and how many times the producer ran. -/
def ZCache.fetch (store : ZCacheStore) (tRead tWrite : Nat) (key : String)
    (expires_in : Option Nat) (producer : Option ZEntry) :
    Except ZCacheError ZEntry × ZCacheStore × Nat :=
  match ZCache.read store tRead key with
  | some value => (Except.ok value, store, 0)
  | none =>
      match producer with
      | some value =>
          (Except.ok value, ZCache.write store tWrite key value expires_in, 1)
      | none => (Except.error (ZCacheError.FetchError key), store, 1)

/-- A stale or absent key stays stale or absent as the clock advances:
expiry is monotone in the read time. -/
theorem read_none_mono (store : ZCacheStore) (t t2 : Nat) (key : String)
    (h : ZCache.read store t key = none) (hle : t ≤ t2) :
    ZCache.read store t2 key = none := by
  unfold ZCache.read ZCache.readM at h ⊢
  cases hk : store key with
  | none => simp [hk]
  | some e =>
      obtain ⟨vu, v⟩ := e
      rw [hk] at h
      by_cases h0 : vu = 0 ∨ vu > t
      · simp [h0] at h
      · push_neg at h0
        have : ¬ (vu = 0 ∨ vu > t2) := by
          push_neg
          exact ⟨h0.1, le_trans h0.2 hle⟩
        simp [this]

/-- A one-entry demo store: key "k" maps to a never-expiring `Int 1`. -/
def storeK0 : ZCacheStore :=
  fun k => if k = "k" then some (0, ZEntry.Int 1) else none

/-- A one-entry demo store: key "k" maps to `Int 1` expiring at time 5. -/
def storeK5 : ZCacheStore :=
  fun k => if k = "k" then some (5, ZEntry.Int 1) else none

/-- C1: on a cache hit (`read key` returns a value), `fetch` returns that
cached value unchanged, leaves the store as it was, and never invokes the
producer, for every key, ttl and producer. -/
theorem fetch_hit (store : ZCacheStore) (tRead tWrite : Nat) (key : String)
    (expires_in : Option Nat) (producer : Option ZEntry) (v : ZEntry)
    (h : ZCache.read store tRead key = some v) :
    ZCache.fetch store tRead tWrite key expires_in producer =
      (Except.ok v, store, 0) := by
  unfold ZCache.fetch
  rw [h]

/-- Witness for C1 at a concrete fresh entry. -/
theorem fetch_hit_witness :
    ZCache.read storeK0 5 "k" = some (ZEntry.Int 1)
    ∧ ZCache.fetch storeK0 5 6 "k" none (some (ZEntry.Int 2)) =
        (Except.ok (ZEntry.Int 1), storeK0, 0) :=
  ⟨rfl, fetch_hit storeK0 5 6 "k" none (some (ZEntry.Int 2)) (ZEntry.Int 1) rfl⟩

/-- C2: on a cache miss, the producer runs exactly once; when it yields a
value, `fetch` writes that value under the key with the given ttl and
returns the same value as success. -/
theorem fetch_miss_success (store : ZCacheStore) (tRead tWrite : Nat)
    (key : String) (expires_in : Option Nat) (producer : Option ZEntry)
    (v : ZEntry) (hmiss : ZCache.read store tRead key = none)
    (hp : producer = some v) :
    ZCache.fetch store tRead tWrite key expires_in producer =
      (Except.ok v, ZCache.write store tWrite key v expires_in, 1) := by
  unfold ZCache.fetch
  rw [hmiss, hp]

/-- Witness for C2 on the empty store. -/
theorem fetch_miss_success_witness :
    ZCache.read emptyStore 0 "k" = none
    ∧ (some (ZEntry.Int 7) : Option ZEntry) = some (ZEntry.Int 7)
    ∧ ZCache.fetch emptyStore 0 1 "k" (some 10) (some (ZEntry.Int 7)) =
        (Except.ok (ZEntry.Int 7),
          ZCache.write emptyStore 1 "k" (ZEntry.Int 7) (some 10), 1) :=
  ⟨rfl, rfl,
    fetch_miss_success emptyStore 0 1 "k" (some 10) (some (ZEntry.Int 7))
      (ZEntry.Int 7) rfl rfl⟩

/-- C3: `fetch` errors exactly when the read misses and the producer yields
nothing; the error is `FetchError key`, the store is left unmodified, and
an immediately following `fetch` for the same key (at any later read time)
invokes its producer again. -/
theorem fetch_error_iff (store : ZCacheStore) (tRead tWrite : Nat)
    (key : String) (expires_in : Option Nat) (producer : Option ZEntry) :
    ((∃ e, (ZCache.fetch store tRead tWrite key expires_in producer).1 =
        Except.error e) ↔
      ZCache.read store tRead key = none ∧ producer = none)
    ∧ (ZCache.read store tRead key = none → producer = none →
        ZCache.fetch store tRead tWrite key expires_in producer =
          (Except.error (ZCacheError.FetchError key), store, 1)
        ∧ ∀ t3 t4 : Nat, ∀ producer2 : Option ZEntry, tRead ≤ t3 →
            (ZCache.fetch
              (ZCache.fetch store tRead tWrite key expires_in producer).2.1
              t3 t4 key expires_in producer2).2.2 = 1) := by
  constructor
  · constructor
    · rintro ⟨e, he⟩
      unfold ZCache.fetch at he
      cases hr : ZCache.read store tRead key with
      | none =>
          rw [hr] at he
          cases hp : producer with
          | none => exact ⟨rfl, rfl⟩
          | some v => rw [hp] at he; simp at he
      | some v => rw [hr] at he; simp at he
    · rintro ⟨hr, hp⟩
      refine ⟨ZCacheError.FetchError key, ?_⟩
      unfold ZCache.fetch
      rw [hr, hp]
  · intro hr hp
    have hfe : ZCache.fetch store tRead tWrite key expires_in producer =
        (Except.error (ZCacheError.FetchError key), store, 1) := by
      unfold ZCache.fetch
      rw [hr, hp]
    refine ⟨hfe, ?_⟩
    intro t3 t4 producer2 hle
    rw [hfe]
    have hr2 : ZCache.read store t3 key = none :=
      read_none_mono store tRead t3 key hr hle
    unfold ZCache.fetch
    rw [hr2]
    cases producer2 <;> rfl

/-- Witness for C3: a failed fetch on the empty store, its unchanged store,
and the retry count of the follow-up fetch. -/
theorem fetch_error_iff_witness :
    ZCache.read emptyStore 0 "k" = none
    ∧ ZCache.fetch emptyStore 0 1 "k" none none =
        (Except.error (ZCacheError.FetchError "k"), emptyStore, 1)
    ∧ (ZCache.fetch (ZCache.fetch emptyStore 0 1 "k" none none).2.1
        2 3 "k" none none).2.2 = 1 :=
  ⟨rfl, ((fetch_error_iff emptyStore 0 1 "k" none none).2 rfl rfl).1,
    ((fetch_error_iff emptyStore 0 1 "k" none none).2 rfl rfl).2 2 3 none
      (by omega)⟩

/-- C4: `read` returns "not found" for an absent key, the stored value for
a never-expires (zero-marker) entry, and for a timestamped entry the value
iff the timestamp is strictly greater than the current time, otherwise
"not found". -/
theorem read_spec (store : ZCacheStore) (now : Nat) (key : String) :
    (store key = none → ZCache.read store now key = none)
    ∧ (∀ v, store key = some (0, v) → ZCache.read store now key = some v)
    ∧ (∀ t v, store key = some (t, v) → t ≠ 0 →
        (ZCache.read store now key = some v ↔ t > now)
        ∧ (¬ t > now → ZCache.read store now key = none)) := by
  refine ⟨?_, ?_, ?_⟩
  · intro h
    simp [ZCache.read, ZCache.readM, h]
  · intro v h
    simp [ZCache.read, ZCache.readM, h]
  · intro t v h ht
    constructor
    · constructor
      · intro hr
        by_contra hgt
        simp [ZCache.read, ZCache.readM, h, ht, hgt] at hr
      · intro hgt
        simp [ZCache.read, ZCache.readM, h, hgt]
    · intro hgt
      simp [ZCache.read, ZCache.readM, h, ht, hgt]

/-- Witness for C4: a timestamped entry read before its expiry. -/
theorem read_spec_witness :
    storeK5 "k" = some (5, ZEntry.Int 1)
    ∧ (5 : Nat) ≠ 0
    ∧ (ZCache.read storeK5 3 "k" = some (ZEntry.Int 1) ↔ (5 : Nat) > 3) :=
  ⟨rfl, by omega,
    ((read_spec storeK5 3 "k").2.2 5 (ZEntry.Int 1) rfl (by omega)).1⟩

/-- C5: `read` never mutates the store — the store after a read equals the
store before it; in particular an entry observed as stale is left in
place. -/
theorem read_no_mutation (store : ZCacheStore) (now : Nat) (key : String) :
    (ZCache.readM store now key).2 = store
    ∧ ∀ t v, store key = some (t, v) →
        (ZCache.readM store now key).2 key = some (t, v) := by
  have h2 : (ZCache.readM store now key).2 = store := by
    unfold ZCache.readM
    cases store key with
    | none => rfl
    | some e =>
        obtain ⟨vu, v⟩ := e
        by_cases h : vu = 0 ∨ vu > now <;> simp [h]
  exact ⟨h2, fun t v hv => by rw [h2]; exact hv⟩

/-- Witness for C5: a stale entry (expiry 5, read at time 9) is observed
as absent yet remains in the store. -/
theorem read_no_mutation_witness :
    (ZCache.readM storeK5 9 "k").2 = storeK5
    ∧ (ZCache.readM storeK5 9 "k").2 "k" = some (5, ZEntry.Int 1) :=
  ⟨(read_no_mutation storeK5 9 "k").1,
    (read_no_mutation storeK5 9 "k").2 5 (ZEntry.Int 1) rfl⟩

/-- C6: `write` with a duration stores expiry `now + duration`; with no
duration it stores the never-expires sentinel `0`; it unconditionally
replaces the entry for that key and leaves every other key unchanged. -/
theorem write_spec (store : ZCacheStore) (now : Nat) (key : String)
    (value : ZEntry) :
    (∀ d, ZCache.write store now key value (some d) key =
        some (now + d, value))
    ∧ ZCache.write store now key value none key = some (0, value)
    ∧ (∀ ttl k2, k2 ≠ key →
        ZCache.write store now key value ttl k2 = store k2) := by
  refine ⟨?_, ?_, ?_⟩
  · intro d
    simp [ZCache.write]
  · simp [ZCache.write]
  · intro ttl k2 hne
    simp [ZCache.write, hne]

/-- Witness for C6: writing "k" leaves the distinct key "x" unchanged. -/
theorem write_spec_witness :
    ("x" : String) ≠ "k"
    ∧ ZCache.write emptyStore 2 "k" (ZEntry.Bool true) (some 3) "x" =
        emptyStore "x" :=
  ⟨by decide,
    (write_spec emptyStore 2 "k" (ZEntry.Bool true)).2.2 (some 3) "x"
      (by decide)⟩

/-- C7: a never-expires write followed by a read at any later time returns
the written value unchanged, for every value of every variant. -/
theorem write_none_read (store : ZCacheStore) (tWrite tRead : Nat)
    (key : String) (value : ZEntry) :
    ZCache.read (ZCache.write store tWrite key value none) tRead key =
      some value := by
  simp [ZCache.read, ZCache.readM, ZCache.write]

/-- C8: with ttl > 0, a read strictly before the expiry instant returns the
written value and a read at or after it returns "not found". -/
theorem write_ttl_read (store : ZCacheStore) (tWrite : Nat) (key : String)
    (value : ZEntry) (ttl : Nat) (httl : 0 < ttl) (tRead : Nat) :
    (tRead < tWrite + ttl →
      ZCache.read (ZCache.write store tWrite key value (some ttl)) tRead key =
        some value)
    ∧ (tWrite + ttl ≤ tRead →
      ZCache.read (ZCache.write store tWrite key value (some ttl)) tRead key =
        none) := by
  constructor
  · intro hlt
    simp [ZCache.read, ZCache.readM, ZCache.write, hlt]
  · intro hge
    have hc1 : ¬ tWrite + ttl = 0 := by omega
    have hc2 : ¬ tWrite + ttl > tRead := by omega
    simp [ZCache.read, ZCache.readM, ZCache.write, hc1, hc2]

/-- Witness for C8: ttl 10 written at time 100, read at 105 and at 110. -/
theorem write_ttl_read_witness :
    (0 : Nat) < 10
    ∧ ZCache.read (ZCache.write emptyStore 100 "k" (ZEntry.Int 1) (some 10))
        105 "k" = some (ZEntry.Int 1)
    ∧ ZCache.read (ZCache.write emptyStore 100 "k" (ZEntry.Int 1) (some 10))
        110 "k" = none :=
  ⟨by omega,
    (write_ttl_read emptyStore 100 "k" (ZEntry.Int 1) 10 (by omega) 105).1
      (by omega),
    (write_ttl_read emptyStore 100 "k" (ZEntry.Int 1) 10 (by omega) 110).2
      (by omega)⟩

/-- C9: `write` is idempotent — writing twice in succession with identical
arguments (same key, value, ttl and clock reading) yields the same store
as writing once. -/
theorem write_idempotent (store : ZCacheStore) (now : Nat) (key : String)
    (value : ZEntry) (ttl : Option Nat) :
    ZCache.write (ZCache.write store now key value ttl) now key value ttl =
      ZCache.write store now key value ttl := by
  funext k
  by_cases hk : k = key <;> simp [ZCache.write, hk]

/-- C10: a zero ttl written at a positive time stores expiry equal to the
write time, not the never-expires sentinel, so every read at or after the
write observes the entry as absent. -/
theorem write_zero_ttl (store : ZCacheStore) (tWrite : Nat) (key : String)
    (value : ZEntry) (hpos : 0 < tWrite) :
    ZCache.write store tWrite key value (some 0) key = some (tWrite, value)
    ∧ ∀ tRead, tWrite ≤ tRead →
        ZCache.read (ZCache.write store tWrite key value (some 0)) tRead key =
          none := by
  constructor
  · simp [ZCache.write]
  · intro tRead hle
    have hc1 : ¬ tWrite = 0 := by omega
    have hc2 : ¬ tRead < tWrite := by omega
    simp [ZCache.read, ZCache.readM, ZCache.write, hc1, hc2]

/-- Witness for C10: zero ttl written at time 7, read back at time 7. -/
theorem write_zero_ttl_witness :
    (0 : Nat) < 7
    ∧ ZCache.write emptyStore 7 "k" (ZEntry.Text "v") (some 0) "k" =
        some (7, ZEntry.Text "v")
    ∧ ZCache.read (ZCache.write emptyStore 7 "k" (ZEntry.Text "v") (some 0))
        7 "k" = none :=
  ⟨by omega,
    (write_zero_ttl emptyStore 7 "k" (ZEntry.Text "v") (by omega)).1,
    (write_zero_ttl emptyStore 7 "k" (ZEntry.Text "v") (by omega)).2 7
      (by omega)⟩

end Zcache
